import Mathlib

/-!
Verification of the helpdesk backend's authentication/authorization core and
ticket SLA engine, as a shallow embedding of the Go sources.

Conventions of the embedding:
- instants in time are modelled as `Int`, counted in seconds (Go `time.Time`);
  one hour is 3600 seconds; `a.After(b)` is the strict comparison `b < a`;
- `time.Duration` values (token TTLs) are `Int` seconds, so
  `int64(d.Seconds())` is the duration itself;
- the string-typed Go enums `UserRole`, `TicketStatus` and `TicketPriority`
  are kept as `String`, matching `internal/domain/models.go`, so unrecognized
  values remain representable;
- HMAC signing is modelled symbolically: a signature is the (key, method,
  payload) triple, and verification succeeds exactly when the same key,
  method and payload are presented.  bcrypt is modelled the same way;
- fallible Go functions returning `(T, error)` become `Except String T`;
- the persistent store is out of scope: repository `Create`/`Update` calls
  are modelled as returning the written record (they only relay the row).
-/

namespace Helpdesk

/-! ### Domain model (`internal/domain/models.go`) -/

/-- UserRole constant `AdminRole = "admin"`. -/
def AdminRole : String := "admin"

/-- UserRole constant `AgentRole = "agent"`. -/
def AgentRole : String := "agent"

/-- UserRole constant `EndUserRole = "end_user"`. -/
def EndUserRole : String := "end_user"

/-- TicketStatus constants. -/
def OpenStatus : String := "open"

/-- TicketStatus constant `in_progress`. -/
def InProgressStatus : String := "in_progress"

/-- TicketStatus constant `resolved`. -/
def ResolvedStatus : String := "resolved"

/-- TicketStatus constant `closed`. -/
def ClosedStatus : String := "closed"

/-- TicketPriority constant `low`. -/
def LowPriority : String := "low"

/-- TicketPriority constant `medium`. -/
def MediumPriority : String := "medium"

/-- TicketPriority constant `high`. -/
def HighPriority : String := "high"

/-- TicketPriority constant `critical`. -/
def CriticalPriority : String := "critical"

/-- User record (`domain.User`), restricted to the fields the claims touch.
`password` holds the bcrypt hash, as in the Go struct after creation. -/
structure User where
  id : Nat
  email : String
  firstName : String := ""
  lastName : String := ""
  password : String := ""
  role : String
  department : String := ""
  isActive : Bool := true
deriving DecidableEq

/-- Ticket record (`domain.Ticket`), restricted to the SLA-relevant fields.
`slaBreachAt` and `resolvedAt` are nullable (`*time.Time`). -/
structure Ticket where
  id : Nat := 0
  title : String := ""
  description : String := ""
  status : String := OpenStatus
  priority : String := MediumPriority
  category : String := ""
  requesterID : Nat := 0
  assigneeID : Option Nat := none
  slaBreachAt : Option Int := none
  resolvedAt : Option Int := none
  createdAt : Int := 0
deriving DecidableEq

/-! ### SLA deadline engine (`internal/service/ticket_service.go`) -/

/-- One hour in the embedding's time unit (seconds). -/
def hourSeconds : Int := 3600

/-- Embeds `getSLAHours` (ticket_service.go lines 141-154): the fixed
priority-to-hours table with a default of 24 for unrecognized priorities. -/
def getSLAHours (priority : String) : Int :=
  if priority = CriticalPriority then 4
  else if priority = HighPriority then 8
  else if priority = MediumPriority then 24
  else if priority = LowPriority then 72
  else 24

/-- Embeds `TicketService.CreateTicket` (ticket_service.go lines 20-27): stamps
`slaBreachAt = now + getSLAHours(priority) * hour` and writes the ticket.
The only error channel in the Go code is the repository `Create` call,
which the embedding models as succeeding with the written row. -/
def CreateTicket (ticket : Ticket) (now : Int) : Except String Ticket :=
  let slaHours := getSLAHours ticket.priority
  let breachTime := now + slaHours * hourSeconds
  Except.ok { ticket with slaBreachAt := some breachTime }

/-- Embeds `TicketService.UpdateTicket` (ticket_service.go lines 33-41): stamps
`resolvedAt = now` exactly when the status being saved is `resolved` and
`resolvedAt` is still unset; the repository `Update` is modelled as the
written row. -/
def UpdateTicket (ticket : Ticket) (now : Int) : Ticket :=
  if ticket.status = ResolvedStatus ∧ ticket.resolvedAt = none then
    { ticket with resolvedAt := some now }
  else ticket

/-- Request body of `updateTicketHandler` (ticket_handlers.go lines 152-158):
absent JSON fields decode to `""`. -/
structure UpdateTicketRequest where
  title : String := ""
  description : String := ""
  status : String := ""
  priority : String := ""
  category : String := ""
deriving DecidableEq

/-- Field merge of `updateTicketHandler` (ticket_handlers.go lines 171-186):
each non-empty request field overwrites the stored ticket's field; nothing
else on the row is touched. -/
def applyUpdateRequest (t : Ticket) (req : UpdateTicketRequest) : Ticket :=
  let t1 := if req.title ≠ "" then { t with title := req.title } else t
  let t2 := if req.description ≠ "" then { t1 with description := req.description } else t1
  let t3 := if req.status ≠ "" then { t2 with status := req.status } else t2
  let t4 := if req.priority ≠ "" then { t3 with priority := req.priority } else t3
  if req.category ≠ "" then { t4 with category := req.category } else t4

/-- Embeds `updateTicketHandler` (ticket_handlers.go lines 144-196) after the ticket
has been loaded: merge the request fields, then save through
`TicketService.UpdateTicket`. -/
def updateTicketHandler (t : Ticket) (req : UpdateTicketRequest) (now : Int) : Ticket :=
  UpdateTicket (applyUpdateRequest t req) now

/-! ### Breach predicate, at its two code sites -/

/-- The SLA filter of `listTicketsHandler` (ticket_handlers.go lines
110-120): keep a ticket when `SLABreachAt != nil && now.After(*SLABreachAt)
&& Status != resolved && Status != closed`. -/
def slaFilterKeeps (t : Ticket) (now : Int) : Bool :=
  match t.slaBreachAt with
  | none => false
  | some b => decide (b < now) && decide (t.status ≠ ResolvedStatus)
      && decide (t.status ≠ ClosedStatus)

/-- SQL comparison under NULL semantics: `NULL < x` is unknown (`none`). -/
def sqlLt (a : Option Int) (b : Int) : Option Bool :=
  match a with
  | none => none
  | some v => some (decide (v < b))

/-- SQL three-valued conjunction. -/
def sqlAnd (a b : Option Bool) : Option Bool :=
  match a, b with
  | some false, _ => some false
  | _, some false => some false
  | some true, some true => some true
  | _, _ => none

/-- WHERE clause of `TicketRepository.GetSLABreachesCount` (repository,
lines 89-95): `sla_breach_at < now AND status NOT IN (resolved, closed)`;
a row is counted only when the clause evaluates to true, so a NULL
`sla_breach_at` is never counted. -/
def breachCountKeeps (t : Ticket) (now : Int) : Bool :=
  sqlAnd (sqlLt t.slaBreachAt now)
      (some (decide (t.status ≠ ResolvedStatus) && decide (t.status ≠ ClosedStatus)))
    == some true

/-! ### Token service (`internal/auth/jwt_service.go`) -/

/-- JWT signing methods relevant to the code's method check: the HMAC family
(`SigningMethodHMAC`) versus anything else declared in a token header. -/
inductive SigningMethod where
  | hs256
  | hs384
  | hs512
  | rs256
  | es256
  | algNone
deriving DecidableEq

/-- Whether a method belongs to the `jwt.SigningMethodHMAC` family, the test
performed by the key function inside `ValidateToken`. -/
def SigningMethod.isHMAC : SigningMethod → Bool
  | .hs256 => true
  | .hs384 => true
  | .hs512 => true
  | _ => false

/-- The custom claims payload (`auth.Claims`, jwt_service.go lines 13-19),
with the registered claims the code sets. -/
structure Claims where
  userID : Nat
  email : String
  role : String
  isRefresh : Bool
  expiresAt : Int
  issuedAt : Int
  notBefore : Int
  issuer : String
  subject : String
deriving DecidableEq

/-- Symbolic HMAC signature: carries exactly the key, method and payload it
was produced from, so verification is equality of the recomputed value. -/
structure Signature where
  key : String
  method : SigningMethod
  payload : Claims
deriving DecidableEq

/-- Producing a signature over a claims payload (`token.SignedString`). -/
def hmacSign (key : String) (m : SigningMethod) (c : Claims) : Signature :=
  ⟨key, m, c⟩

/-- A compact signed token: header (method), payload (claims), signature. -/
structure Token where
  method : SigningMethod
  claims : Claims
  sig : Signature
deriving DecidableEq

/-- Embeds `auth.JWTService` (jwt_service.go lines 22-26); TTLs in seconds. -/
structure JWTService where
  secretKey : String
  accessTokenTTL : Int
  refreshTokenTTL : Int
deriving DecidableEq

/-- Embeds `domain.TokenPair`: the pair returned by login/refresh.  The Go struct
holds the two tokens as compact strings; the embedding keeps them decoded. -/
structure TokenPair where
  accessToken : Token
  refreshToken : Token
  expiresIn : Int
deriving DecidableEq

/-- Embeds `JWTService.generateToken` (jwt_service.go lines 61-78): builds the
claims with `IssuedAt = NotBefore = now`, issuer `helpdesk-backend`,
subject the user's email, and signs with HS256 under the service secret. -/
def JWTService.generateToken (j : JWTService) (user : User) (isRefresh : Bool)
    (expiresAt : Int) (now : Int) : Token :=
  let c : Claims :=
    { userID := user.id
      email := user.email
      role := user.role
      isRefresh := isRefresh
      expiresAt := expiresAt
      issuedAt := now
      notBefore := now
      issuer := "helpdesk-backend"
      subject := user.email }
  { method := .hs256, claims := c, sig := hmacSign j.secretKey .hs256 c }

/-- Embeds `JWTService.GenerateTokenPair` (jwt_service.go lines 38-58): access token
expiring at `now + accessTokenTTL`, refresh token at `now + refreshTokenTTL`,
`ExpiresIn = accessTokenTTL` seconds.  Signing cannot fail in the embedding,
so the Go error path is absent. -/
def JWTService.GenerateTokenPair (j : JWTService) (user : User) (now : Int) : TokenPair :=
  { accessToken := j.generateToken user false (now + j.accessTokenTTL) now
    refreshToken := j.generateToken user true (now + j.refreshTokenTTL) now
    expiresIn := j.accessTokenTTL }

/-- The key function closure passed to `jwt.ParseWithClaims` inside
`ValidateToken` (jwt_service.go lines 82-88): reject any method outside the
HMAC family, otherwise hand back the service secret. -/
def JWTService.keyfuncHMAC (j : JWTService) (t : Token) : Except String String :=
  if t.method.isHMAC then Except.ok j.secretKey
  else Except.error "invalid signing method"

/-- Embeds `jwt.ParseWithClaims` of golang-jwt v5 on an already-decoded token:
run the key function, verify the signature under the returned key, then run
the default claims validator, which fails when `now >= exp` and when
`now < nbf` (strict `Before` comparisons, zero leeway). -/
def JWTService.parseWithClaims (j : JWTService) (now : Int) (t : Token) :
    Except String Claims :=
  match j.keyfuncHMAC t with
  | Except.error e => Except.error e
  | Except.ok key =>
    if t.sig ≠ hmacSign key t.method t.claims then
      Except.error "token signature is invalid"
    else if t.claims.expiresAt ≤ now then
      Except.error "token is expired"
    else if now < t.claims.notBefore then
      Except.error "token is not valid yet"
    else Except.ok t.claims

/-- Embeds `JWTService.ValidateToken` (jwt_service.go lines 81-99): parse and
validate; on success the parsed claims are returned. -/
def JWTService.ValidateToken (j : JWTService) (now : Int) (t : Token) :
    Except String Claims :=
  j.parseWithClaims now t

/-- Embeds `JWTService.RefreshAccessToken` (jwt_service.go lines 102-133):
validate the presented token, fail unless it is refresh-kind, then mint a
fresh access token from the claims and return it next to the *same*
refresh token. -/
def JWTService.RefreshAccessToken (j : JWTService) (now : Int) (t : Token) :
    Except String TokenPair :=
  match j.ValidateToken now t with
  | Except.error e => Except.error e
  | Except.ok claims =>
    if !claims.isRefresh then Except.error "invalid refresh token"
    else
      let user : User :=
        { id := claims.userID, email := claims.email, role := claims.role }
      Except.ok
        { accessToken := j.generateToken user false (now + j.accessTokenTTL) now
          refreshToken := t
          expiresIn := j.accessTokenTTL }

/-! ### Request authenticator and authorization guard
(`internal/auth`, middleware file) -/

/-- The `Authorization` header of a request, after the split performed by the
middleware: absent, not of the exact shape `Bearer <token>`, or a bearer
token (decoded in the embedding). -/
inductive AuthHeader where
  | missing
  | malformed (raw : String)
  | bearer (t : Token)
deriving DecidableEq

/-- Outcome of `AuthMiddleware` on one request: abort with an HTTP status
and error body, or continue the pipeline with the identity published into
the request context (`user_id`, `user_email`, `user_role`, `jwt_claims`). -/
inductive MwResult where
  | aborted (status : Nat) (errMsg : String)
  | nextWith (userID : Nat) (email : String) (role : String) (c : Claims)
deriving DecidableEq

/-- Embeds `AuthMiddleware` (middleware, lines 214-266): missing header aborts 401;
malformed header aborts 401; validation failure aborts 401; a refresh-kind
token aborts 401; otherwise the claims identity is published and the
pipeline continues. -/
def AuthMiddleware (j : JWTService) (now : Int) (h : AuthHeader) : MwResult :=
  match h with
  | .missing => .aborted 401 "Authorization header required"
  | .malformed _ =>
      .aborted 401 "Invalid authorization header format. Use: Bearer <token>"
  | .bearer t =>
    match j.ValidateToken now t with
    | Except.error _ => .aborted 401 "Invalid or expired token"
    | Except.ok claims =>
      if claims.isRefresh then
        .aborted 401 "Access token required, not refresh token"
      else .nextWith claims.userID claims.email claims.role claims

/-- Outcome of the role guard: abort with a status, error message and the
extra body fields the Go handler serializes (`required_roles`, `user_role`),
or continue the pipeline. -/
inductive GuardResult where
  | aborted (status : Nat) (errMsg : String)
      (requiredRoles : Option (List String)) (userRole : Option String)
  | next
deriving DecidableEq

/-- Embeds `RequireRole` (middleware, lines 269-306), given the `user_role` value
published in the request context (`none` when `AuthMiddleware` did not run):
no role in context aborts 500; a role in the allowed list continues; any
other role aborts 403 with a body naming the caller's role and the allowed
list.  The Go type assertion on the context value is statically satisfied
in the typed embedding. -/
def RequireRole (allowedRoles : List String) (ctxRole : Option String) : GuardResult :=
  match ctxRole with
  | none => .aborted 500 "User role not found in context" none none
  | some role =>
    if allowedRoles.contains role then .next
    else .aborted 403 "Insufficient permissions" (some allowedRoles) (some role)

/-! ### Login (`internal/api/auth_handlers.go`,
`internal/service/user_service.go`) -/

/-- The credential store's `lookup-by-email`
(`UserRepository.GetByEmail`). -/
abbrev UserDB := String → Option User

/-- Symbolic bcrypt hash of a password (`bcrypt.GenerateFromPassword`). -/
def bcryptHash (pw : String) : String := "bcrypt$" ++ pw

/-- Embeds `bcrypt.CompareHashAndPassword` succeeds exactly when the stored hash is
the hash of the presented password. -/
def bcryptMatches (hash pw : String) : Bool := hash == bcryptHash pw

/-- Embeds `UserService.AuthenticateUser` (user_service.go lines 54-68): an unknown
email and a wrong password produce the *same* error string. -/
def AuthenticateUser (db : UserDB) (email password : String) : Except String User :=
  match db email with
  | none => Except.error "invalid email or password"
  | some user =>
    if bcryptMatches user.password password then Except.ok user
    else Except.error "invalid email or password"

/-- Outcome of the login endpoint: an HTTP failure with status and error
body, or a 200 with the user identity and the issued token pair. -/
inductive LoginResult where
  | failure (status : Nat) (errMsg : String)
  | success (userID : Nat) (email : String) (role : String) (tokens : TokenPair)
deriving DecidableEq

/-- Embeds `AuthHandlers.Login` (auth_handlers.go lines 28-77) on an
already-decoded request body: authentication failure responds 401
`Invalid email or password`; an inactive account responds 401
`Account is deactivated`; otherwise a token pair is issued at `now`.
JSON binding errors (400) and the unreachable signing-failure path (500)
are outside the embedding. -/
def Login (db : UserDB) (j : JWTService) (now : Int)
    (email password : String) : LoginResult :=
  match AuthenticateUser db email password with
  | Except.error _ => .failure 401 "Invalid email or password"
  | Except.ok user =>
    if !user.isActive then .failure 401 "Account is deactivated"
    else .success user.id user.email user.role (j.GenerateTokenPair user now)

/-! ### Concrete fixtures used by witnesses -/

/-- A service instance with a 15-minute access TTL and 7-day refresh TTL,
the configuration defaults. -/
def jwtFix : JWTService := ⟨"s3cret", 900, 604800⟩

/-- A sample active agent user. -/
def userFix : User := { id := 7, email := "a@b.c", role := AgentRole }

/-- The token pair issued to `userFix` at instant 1000. -/
def pairFix : TokenPair := jwtFix.GenerateTokenPair userFix 1000

/-- An RS256-headed token carrying the payload and signature of a genuinely
issued access token. -/
def rs256Tok : Token :=
  { method := SigningMethod.rs256
    claims := pairFix.accessToken.claims
    sig := pairFix.accessToken.sig }

/-! ### Shared lemmas -/

/-- Characterization of successful validation: `ValidateToken` returns
claims exactly when the header method is HMAC-family, the signature is the
HMAC of the payload under the service secret, the token is not expired and
not used before `nbf`; the returned claims are the token's payload. -/
theorem validateToken_ok_iff (j : JWTService) (now : Int) (t : Token) (c : Claims) :
    j.ValidateToken now t = Except.ok c ↔
      t.method.isHMAC = true ∧
      t.sig = hmacSign j.secretKey t.method t.claims ∧
      now < t.claims.expiresAt ∧
      t.claims.notBefore ≤ now ∧
      c = t.claims := by
  unfold JWTService.ValidateToken JWTService.parseWithClaims JWTService.keyfuncHMAC
  cases hm : t.method.isHMAC
  · simp [hm]
  · simp only [hm, if_true, reduceIte]
    by_cases hsig : t.sig = hmacSign j.secretKey t.method t.claims
    · by_cases hexp : t.claims.expiresAt ≤ now
      · simp [hsig, hexp]
      · by_cases hnbf : now < t.claims.notBefore
        · simp [hsig, hexp, hnbf]
        · simp [hsig, hexp, hnbf]
          constructor
          · rintro rfl
            refine ⟨by omega, by omega, rfl⟩
          · rintro ⟨-, -, rfl⟩
            rfl
    · simp [hsig]

/-- The claims returned by a successful validation are the token's payload. -/
theorem validateToken_ok_claims (j : JWTService) (now : Int) (t : Token) (c : Claims)
    (h : j.ValidateToken now t = Except.ok c) : c = t.claims :=
  ((validateToken_ok_iff j now t c).mp h).2.2.2.2

/-! ### Claim theorems -/

/-- C1: validating the access token of a freshly issued token pair at any
instant `t` from issuance (the token's `nbf`) up to but excluding expiry
returns claims whose `userID` and `role` are the user's; at or after
`now + accessTokenTTL` validation fails. -/
theorem accessToken_roundTrip (j : JWTService) (u : User) (now t : Int)
    (hnb : now ≤ t) :
    (t < now + j.accessTokenTTL →
      ∃ c, j.ValidateToken t (j.GenerateTokenPair u now).accessToken = Except.ok c ∧
        c.userID = u.id ∧ c.role = u.role) ∧
    (now + j.accessTokenTTL ≤ t →
      ∃ e, j.ValidateToken t (j.GenerateTokenPair u now).accessToken = Except.error e) := by
  constructor
  · intro hexp
    refine ⟨(j.GenerateTokenPair u now).accessToken.claims, ?_, rfl, rfl⟩
    rw [validateToken_ok_iff]
    exact ⟨rfl, rfl, hexp, hnb, rfl⟩
  · intro hexp
    refine ⟨"token is expired", ?_⟩
    show JWTService.parseWithClaims _ _ _ = _
    unfold JWTService.parseWithClaims JWTService.keyfuncHMAC
    simp [JWTService.GenerateTokenPair, JWTService.generateToken,
      SigningMethod.isHMAC, hexp]

/-- Witness for C1: with a 900-second access TTL and issuance at 1000,
validation at 1500 succeeds with the user's id and role, and validation at
2000 (at/after expiry 1900) fails. -/
theorem accessToken_roundTrip_witness :
    ((1000 : Int) ≤ 1500) ∧ ((1500 : Int) < 1000 + jwtFix.accessTokenTTL) ∧
    (∃ c, jwtFix.ValidateToken 1500 (jwtFix.GenerateTokenPair userFix 1000).accessToken
        = Except.ok c ∧ c.userID = userFix.id ∧ c.role = userFix.role) ∧
    (∃ e, jwtFix.ValidateToken 2000 (jwtFix.GenerateTokenPair userFix 1000).accessToken
        = Except.error e) := by
  refine ⟨by norm_num, by norm_num [jwtFix], ?_, ?_⟩
  · exact (accessToken_roundTrip jwtFix userFix 1000 1500 (by norm_num)).1
      (by norm_num [jwtFix])
  · exact (accessToken_roundTrip jwtFix userFix 1000 2000 (by norm_num)).2
      (by norm_num [jwtFix])

/-- C10: a token whose header declares a method outside the HMAC family is
rejected by `ValidateToken` with the key-function error, and no claims are
ever returned for it. -/
theorem validateToken_rejects_nonHMAC (j : JWTService) (now : Int) (t : Token)
    (h : t.method.isHMAC = false) :
    j.ValidateToken now t = Except.error "invalid signing method" ∧
    ∀ c, j.ValidateToken now t ≠ Except.ok c := by
  have hv : j.ValidateToken now t = Except.error "invalid signing method" := by
    unfold JWTService.ValidateToken JWTService.parseWithClaims JWTService.keyfuncHMAC
    simp [h]
  exact ⟨hv, fun c hc => by rw [hv] at hc; cases hc⟩

/-- Witness for C10: an RS256-headed token (payload and signature copied
from a genuinely issued token) is rejected. -/
theorem validateToken_rejects_nonHMAC_witness :
    (rs256Tok.method.isHMAC = false) ∧
    jwtFix.ValidateToken 1000 rs256Tok = Except.error "invalid signing method" :=
  ⟨rfl, (validateToken_rejects_nonHMAC jwtFix 1000 rs256Tok rfl).1⟩

/-- C2: token kinds are strictly separated.  A refresh-kind bearer token is
rejected by `AuthMiddleware` with a 401 and never reaches the pipeline,
whatever its signature and expiry; an access-kind token presented to
`RefreshAccessToken` makes the refresh fail. -/
theorem tokenKind_separation (j : JWTService) (now : Int) (t : Token) :
    (t.claims.isRefresh = true →
      (∃ msg, AuthMiddleware j now (AuthHeader.bearer t) = MwResult.aborted 401 msg) ∧
      ∀ uid em ro c,
        AuthMiddleware j now (AuthHeader.bearer t) ≠ MwResult.nextWith uid em ro c) ∧
    (t.claims.isRefresh = false →
      ∃ e, j.RefreshAccessToken now t = Except.error e) := by
  constructor
  · intro hr
    cases hv : j.ValidateToken now t with
    | error e =>
      refine ⟨⟨"Invalid or expired token", ?_⟩, ?_⟩
      · simp [AuthMiddleware, hv]
      · intro uid em ro c
        simp [AuthMiddleware, hv]
    | ok c =>
      have hc : c = t.claims := validateToken_ok_claims j now t c hv
      subst hc
      refine ⟨⟨"Access token required, not refresh token", ?_⟩, ?_⟩
      · simp [AuthMiddleware, hv, hr]
      · intro uid em ro c'
        simp [AuthMiddleware, hv, hr]
  · intro hr
    cases hv : j.ValidateToken now t with
    | error e =>
      exact ⟨e, by simp [JWTService.RefreshAccessToken, hv]⟩
    | ok c =>
      have hc : c = t.claims := validateToken_ok_claims j now t c hv
      subst hc
      exact ⟨"invalid refresh token", by simp [JWTService.RefreshAccessToken, hv, hr]⟩

/-- Witness for C2: the issued refresh token is refresh-kind and is turned
away by the middleware with a 401; the issued access token is access-kind
and makes the refresh endpoint fail. -/
theorem tokenKind_separation_witness :
    (pairFix.refreshToken.claims.isRefresh = true) ∧
    (∃ msg, AuthMiddleware jwtFix 1000 (AuthHeader.bearer pairFix.refreshToken)
        = MwResult.aborted 401 msg) ∧
    (pairFix.accessToken.claims.isRefresh = false) ∧
    (∃ e, jwtFix.RefreshAccessToken 1000 pairFix.accessToken = Except.error e) :=
  ⟨rfl,
   ((tokenKind_separation jwtFix 1000 pairFix.refreshToken).1 rfl).1,
   rfl,
   (tokenKind_separation jwtFix 1000 pairFix.accessToken).2 rfl⟩

/-- C7: a token that validates and is refresh-kind makes `RefreshAccessToken`
return a pair holding a fresh access token with the same `userID`, `email`
and `role`, access kind, a new expiry of `now + accessTokenTTL`, and the
very token that was presented as the (un-rotated) refresh token; validation
failure propagates the error, and a validated access-kind token is rejected
with the invalid-refresh error. -/
theorem refreshAccessToken_spec (j : JWTService) (now : Int) (t : Token) :
    (∀ c, j.ValidateToken now t = Except.ok c → c.isRefresh = true →
      ∃ p, j.RefreshAccessToken now t = Except.ok p ∧
        p.refreshToken = t ∧
        p.accessToken.claims.userID = t.claims.userID ∧
        p.accessToken.claims.email = t.claims.email ∧
        p.accessToken.claims.role = t.claims.role ∧
        p.accessToken.claims.isRefresh = false ∧
        p.accessToken.claims.expiresAt = now + j.accessTokenTTL ∧
        p.expiresIn = j.accessTokenTTL) ∧
    (∀ e, j.ValidateToken now t = Except.error e →
      j.RefreshAccessToken now t = Except.error e) ∧
    (∀ c, j.ValidateToken now t = Except.ok c → c.isRefresh = false →
      j.RefreshAccessToken now t = Except.error "invalid refresh token") := by
  refine ⟨?_, ?_, ?_⟩
  · intro c hv hr
    have hc : c = t.claims := validateToken_ok_claims j now t c hv
    subst hc
    have heq : j.RefreshAccessToken now t = Except.ok
        { accessToken := j.generateToken
            { id := t.claims.userID, email := t.claims.email, role := t.claims.role }
            false (now + j.accessTokenTTL) now
          refreshToken := t
          expiresIn := j.accessTokenTTL } := by
      simp [JWTService.RefreshAccessToken, hv, hr]
    exact ⟨_, heq, rfl, rfl, rfl, rfl, rfl, rfl, rfl⟩
  · intro e hv
    simp [JWTService.RefreshAccessToken, hv]
  · intro c hv hr
    have hc : c = t.claims := validateToken_ok_claims j now t c hv
    subst hc
    simp [JWTService.RefreshAccessToken, hv, hr]

/-- Witness for C7: refreshing with the issued refresh token at instant 2000
succeeds, keeps the refresh token, and mints an access token with the same
identity expiring at `2000 + 900`. -/
theorem refreshAccessToken_spec_witness :
    (jwtFix.ValidateToken 2000 pairFix.refreshToken
      = Except.ok pairFix.refreshToken.claims) ∧
    (pairFix.refreshToken.claims.isRefresh = true) ∧
    (∃ p, jwtFix.RefreshAccessToken 2000 pairFix.refreshToken = Except.ok p ∧
      p.refreshToken = pairFix.refreshToken ∧
      p.accessToken.claims.userID = pairFix.refreshToken.claims.userID ∧
      p.accessToken.claims.email = pairFix.refreshToken.claims.email ∧
      p.accessToken.claims.role = pairFix.refreshToken.claims.role ∧
      p.accessToken.claims.isRefresh = false ∧
      p.accessToken.claims.expiresAt = 2000 + jwtFix.accessTokenTTL ∧
      p.expiresIn = jwtFix.accessTokenTTL) := by
  have hv : jwtFix.ValidateToken 2000 pairFix.refreshToken
      = Except.ok pairFix.refreshToken.claims := by
    rw [validateToken_ok_iff]
    refine ⟨rfl, rfl, by norm_num [pairFix, jwtFix, userFix,
      JWTService.GenerateTokenPair, JWTService.generateToken], by norm_num [pairFix,
      jwtFix, userFix, JWTService.GenerateTokenPair, JWTService.generateToken], rfl⟩
  exact ⟨hv, rfl,
    (refreshAccessToken_spec jwtFix 2000 pairFix.refreshToken).1
      pairFix.refreshToken.claims hv rfl⟩

/-- C3: with a role published in the request context, `RequireRole` lets the
request continue exactly when that role is in the route's allowed list;
otherwise it aborts with 403 and a body carrying the caller's role and the
allowed list, and does not continue. -/
theorem requireRole_spec (allowed : List String) (role : String) :
    (RequireRole allowed (some role) = GuardResult.next ↔ role ∈ allowed) ∧
    (role ∉ allowed →
      RequireRole allowed (some role) =
        GuardResult.aborted 403 "Insufficient permissions" (some allowed) (some role) ∧
      RequireRole allowed (some role) ≠ GuardResult.next) := by
  by_cases h : role ∈ allowed
  · have hc : allowed.contains role = true := List.elem_iff.mpr h
    refine ⟨by simp [RequireRole, hc, h], fun hn => absurd h hn⟩
  · have hc : allowed.contains role = false :=
      Bool.eq_false_iff.mpr (fun he => h (List.elem_iff.mp he))
    have heq : RequireRole allowed (some role) =
        GuardResult.aborted 403 "Insufficient permissions" (some allowed) (some role) := by
      simp [RequireRole, hc, h]
    refine ⟨?_, fun _ => ⟨heq, ?_⟩⟩
    · rw [heq]
      simp [h]
    · rw [heq]
      intro hcontra
      cases hcontra

/-- Witness for C3: an agent passes a guard allowing admin or agent; an
end user is turned away with a 403 naming both sides. -/
theorem requireRole_spec_witness :
    (AgentRole ∈ [AdminRole, AgentRole]) ∧
    (RequireRole [AdminRole, AgentRole] (some AgentRole) = GuardResult.next) ∧
    (EndUserRole ∉ [AdminRole, AgentRole]) ∧
    (RequireRole [AdminRole, AgentRole] (some EndUserRole) =
      GuardResult.aborted 403 "Insufficient permissions"
        (some [AdminRole, AgentRole]) (some EndUserRole)) :=
  ⟨by decide,
   (requireRole_spec [AdminRole, AgentRole] AgentRole).1.mpr (by decide),
   by decide,
   ((requireRole_spec [AdminRole, AgentRole] EndUserRole).2 (by decide)).1⟩

/-- A deactivated end user whose password hash matches `pw123`, registered
under `ina@x.io`; nobody else is in this store. -/
def dbFix : UserDB := fun e =>
  if e = "ina@x.io" then
    some { id := 2, email := "ina@x.io", password := bcryptHash "pw123",
           role := EndUserRole, isActive := false }
  else none

/-- C4 is refuted by the code: a wrong password and an inactive account with
the right password produce two different 401 bodies, so the response does
reveal which cause applied. -/
theorem login_single_message_counterexample :
    Login dbFix jwtFix 0 "ina@x.io" "wrong"
      = LoginResult.failure 401 "Invalid email or password" ∧
    Login dbFix jwtFix 0 "ina@x.io" "pw123"
      = LoginResult.failure 401 "Account is deactivated" ∧
    ("Invalid email or password" : String) ≠ "Account is deactivated" := by
  refine ⟨rfl, rfl, by decide⟩

/-- C4 as amended: the two wrong-credential causes (unknown email, wrong
password) share the single generic 401 message, but correct credentials on
a deactivated account get the distinct 401 message
`Account is deactivated`, which reveals inactivity. -/
theorem login_messages_by_cause (db : UserDB) (j : JWTService) (now : Int)
    (email password : String) :
    (∀ e, AuthenticateUser db email password = Except.error e →
      e = "invalid email or password" ∧
      Login db j now email password
        = LoginResult.failure 401 "Invalid email or password") ∧
    (∀ u, AuthenticateUser db email password = Except.ok u → u.isActive = false →
      Login db j now email password
        = LoginResult.failure 401 "Account is deactivated") := by
  refine ⟨?_, ?_⟩
  · intro e ha
    refine ⟨?_, ?_⟩
    · cases hdb : db email with
      | none =>
        have hu : AuthenticateUser db email password
            = Except.error "invalid email or password" := by
          unfold AuthenticateUser
          rw [hdb]
        rw [hu] at ha
        injection ha with h
        exact h.symm
      | some u =>
        by_cases hp : bcryptMatches u.password password = true
        · have hu : AuthenticateUser db email password = Except.ok u := by
            unfold AuthenticateUser
            rw [hdb]
            simp [hp]
          rw [hu] at ha
          cases ha
        · have hu : AuthenticateUser db email password
              = Except.error "invalid email or password" := by
            unfold AuthenticateUser
            rw [hdb]
            simp [hp]
          rw [hu] at ha
          injection ha with h
          exact h.symm
    · simp [Login, ha]
  · intro u ha hact
    simp [Login, ha, hact]

/-- Witness for C4's amended statement, on the concrete store `dbFix`. -/
theorem login_messages_by_cause_witness :
    (AuthenticateUser dbFix "ina@x.io" "wrong"
      = Except.error "invalid email or password") ∧
    (Login dbFix jwtFix 0 "ina@x.io" "wrong"
      = LoginResult.failure 401 "Invalid email or password") ∧
    (AuthenticateUser dbFix "ina@x.io" "pw123"
      = Except.ok { id := 2, email := "ina@x.io", password := bcryptHash "pw123",
                    role := EndUserRole, isActive := false }) ∧
    (Login dbFix jwtFix 0 "ina@x.io" "pw123"
      = LoginResult.failure 401 "Account is deactivated") :=
  ⟨rfl,
   ((login_messages_by_cause dbFix jwtFix 0 "ina@x.io" "wrong").1
     "invalid email or password" rfl).2,
   rfl,
   (login_messages_by_cause dbFix jwtFix 0 "ina@x.io" "pw123").2
     { id := 2, email := "ina@x.io", password := bcryptHash "pw123",
       role := EndUserRole, isActive := false } rfl rfl⟩

/-- C5: creating a ticket at instant `now` always succeeds and stamps
`slaBreachAt = now + f(priority)` with `f` the fixed table — 4 hours for
critical, 8 for high, 24 for medium, 72 for low, and 24 for anything
unrecognized. -/
theorem createTicket_sla (t : Ticket) (now : Int) :
    ∃ t2, CreateTicket t now = Except.ok t2 ∧
      t2.slaBreachAt = some (now + getSLAHours t.priority * hourSeconds) ∧
      (t.priority = CriticalPriority → t2.slaBreachAt = some (now + 4 * 3600)) ∧
      (t.priority = HighPriority → t2.slaBreachAt = some (now + 8 * 3600)) ∧
      (t.priority = MediumPriority → t2.slaBreachAt = some (now + 24 * 3600)) ∧
      (t.priority = LowPriority → t2.slaBreachAt = some (now + 72 * 3600)) ∧
      (t.priority ≠ CriticalPriority → t.priority ≠ HighPriority →
        t.priority ≠ MediumPriority → t.priority ≠ LowPriority →
        t2.slaBreachAt = some (now + 24 * 3600)) := by
  refine ⟨_, rfl, rfl, ?_, ?_, ?_, ?_, ?_⟩
  · intro h
    simp [getSLAHours, h, hourSeconds]
  · intro h
    have hne : HighPriority ≠ CriticalPriority := by decide
    simp [getSLAHours, h, hne, hourSeconds]
  · intro h
    have h1 : MediumPriority ≠ CriticalPriority := by decide
    have h2 : MediumPriority ≠ HighPriority := by decide
    simp [getSLAHours, h, h1, h2, hourSeconds]
  · intro h
    have h1 : LowPriority ≠ CriticalPriority := by decide
    have h2 : LowPriority ≠ HighPriority := by decide
    have h3 : LowPriority ≠ MediumPriority := by decide
    simp [getSLAHours, h, h1, h2, h3, hourSeconds]
  · intro h1 h2 h3 h4
    simp [getSLAHours, h1, h2, h3, h4, hourSeconds]

/-- Witness for C5: a ticket with the unrecognized priority `urgent`,
created at instant 100, is created with the default 24-hour deadline. -/
theorem createTicket_sla_witness :
    ∃ t2, CreateTicket { priority := "urgent" } 100 = Except.ok t2 ∧
      t2.slaBreachAt = some (100 + 24 * 3600) := by
  obtain ⟨t2, hok, -, -, -, -, -, hdef⟩ :=
    createTicket_sla { priority := "urgent" } 100
  exact ⟨t2, hok, hdef (by decide) (by decide) (by decide) (by decide)⟩

/-- C6: the breach predicate, at both of its code sites (the dashboard
count's WHERE clause and the list handler's filter), holds exactly when
`slaBreachAt` is non-null, `now` is strictly past it, and the status is
neither resolved nor closed; it is false at the deadline instant itself and
always false for resolved/closed tickets. -/
theorem isBreached_spec (t : Ticket) (now : Int) :
    (slaFilterKeeps t now = breachCountKeeps t now) ∧
    (slaFilterKeeps t now = true ↔
      (∃ b, t.slaBreachAt = some b ∧ b < now) ∧
        t.status ≠ ResolvedStatus ∧ t.status ≠ ClosedStatus) ∧
    (t.slaBreachAt = some now → slaFilterKeeps t now = false) ∧
    (t.status = ResolvedStatus ∨ t.status = ClosedStatus →
      slaFilterKeeps t now = false ∧ breachCountKeeps t now = false) := by
  refine ⟨?_, ?_, ?_, ?_⟩
  · cases hb : t.slaBreachAt with
    | none =>
      by_cases hr : t.status = ResolvedStatus <;>
        by_cases hc : t.status = ClosedStatus <;>
          simp [slaFilterKeeps, breachCountKeeps, sqlLt, sqlAnd, hb, hr, hc]
    | some b =>
      by_cases hlt : b < now <;>
        by_cases hr : t.status = ResolvedStatus <;>
          by_cases hc : t.status = ClosedStatus <;>
            simp [slaFilterKeeps, breachCountKeeps, sqlLt, sqlAnd, hb, hlt, hr, hc]
  · cases hb : t.slaBreachAt with
    | none => simp [slaFilterKeeps, hb]
    | some b => simp [slaFilterKeeps, hb, and_assoc]
  · intro hb
    simp [slaFilterKeeps, hb]
  · intro hs
    have hr : t.status = ResolvedStatus ∨ t.status = ClosedStatus := hs
    cases hb : t.slaBreachAt with
    | none =>
      cases hr with
      | inl h =>
        by_cases hc : t.status = ClosedStatus <;>
          simp [slaFilterKeeps, breachCountKeeps, sqlLt, sqlAnd, hb, h, hc]
      | inr h =>
        by_cases hc : t.status = ResolvedStatus <;>
          simp [slaFilterKeeps, breachCountKeeps, sqlLt, sqlAnd, hb, h, hc]
    | some b =>
      cases hr with
      | inl h =>
        by_cases hlt : b < now <;> by_cases hc : t.status = ClosedStatus <;>
          simp [slaFilterKeeps, breachCountKeeps, sqlLt, sqlAnd, hb, h, hc, hlt]
      | inr h =>
        by_cases hlt : b < now <;> by_cases hc : t.status = ResolvedStatus <;>
          simp [slaFilterKeeps, breachCountKeeps, sqlLt, sqlAnd, hb, h, hc, hlt]

/-- Witness for C6: an open ticket with deadline 50 is not breached at 50,
is breached at 51, and is never breached once resolved. -/
theorem isBreached_spec_witness :
    (slaFilterKeeps { slaBreachAt := some 50 } 50 = false) ∧
    (slaFilterKeeps { slaBreachAt := some 50 } 51 = true) ∧
    (slaFilterKeeps { slaBreachAt := some 50, status := ResolvedStatus } 99 = false ∧
      breachCountKeeps { slaBreachAt := some 50, status := ResolvedStatus } 99 = false) := by
  refine ⟨(isBreached_spec { slaBreachAt := some 50 } 50).2.2.1 rfl, ?_,
    (isBreached_spec { slaBreachAt := some 50, status := ResolvedStatus } 99).2.2.2
      (Or.inl rfl)⟩
  exact (isBreached_spec { slaBreachAt := some 50 } 51).2.1.mpr
    ⟨⟨50, rfl, by norm_num⟩, by decide, by decide⟩

/-- C8: `resolvedAt` is stamped exactly once — an update stamps it with
`now` exactly when the saved status is resolved and it was unset; any other
save leaves the whole ticket unchanged; a set `resolvedAt` survives every
update; and a resolve/reopen/resolve cycle keeps the first stamp. -/
theorem resolvedAt_stamping (t : Ticket) (now n1 n2 n3 : Int) :
    (t.status = ResolvedStatus ∧ t.resolvedAt = none →
      (UpdateTicket t now).resolvedAt = some now) ∧
    (¬(t.status = ResolvedStatus ∧ t.resolvedAt = none) →
      UpdateTicket t now = t) ∧
    (∀ r, t.resolvedAt = some r → (UpdateTicket t now).resolvedAt = some r) ∧
    (t.resolvedAt = none →
      (UpdateTicket { t with status := ResolvedStatus } n1).resolvedAt = some n1 ∧
      (UpdateTicket { UpdateTicket { UpdateTicket { t with status := ResolvedStatus } n1
          with status := OpenStatus } n2
          with status := ResolvedStatus } n3).resolvedAt = some n1) := by
  refine ⟨?_, ?_, ?_, ?_⟩
  · intro h
    simp [UpdateTicket, h]
  · intro h
    simp [UpdateTicket, h]
  · intro r hr
    have h : ¬(t.status = ResolvedStatus ∧ t.resolvedAt = none) := by
      rintro ⟨-, hnone⟩
      rw [hr] at hnone
      cases hnone
    simp [UpdateTicket, h, hr]
  · intro hnone
    have hopen : OpenStatus ≠ ResolvedStatus := by decide
    constructor
    · simp [UpdateTicket, hnone]
    · simp [UpdateTicket, hnone, hopen]

/-- Witness for C8: a fresh open ticket resolved at 10, reopened at 20 and
resolved again at 30 keeps `resolvedAt = 10`. -/
theorem resolvedAt_stamping_witness :
    ((({} : Ticket)).resolvedAt = none) ∧
    ((UpdateTicket { ({} : Ticket) with status := ResolvedStatus } 10).resolvedAt
      = some 10) ∧
    ((UpdateTicket { UpdateTicket { UpdateTicket
        { ({} : Ticket) with status := ResolvedStatus } 10
        with status := OpenStatus } 20
        with status := ResolvedStatus } 30).resolvedAt = some 10) := by
  refine ⟨rfl, ?_, ?_⟩
  · exact ((resolvedAt_stamping {} 0 10 20 30).2.2.2 rfl).1
  · exact ((resolvedAt_stamping {} 0 10 20 30).2.2.2 rfl).2

/-- C9: `slaBreachAt` is frozen at creation — the update handler, for every
stored ticket, request body (priority changes included) and save instant,
returns a ticket whose `slaBreachAt` equals the stored one. -/
theorem slaBreachAt_frozen (t : Ticket) (req : UpdateTicketRequest) (now : Int) :
    (updateTicketHandler t req now).slaBreachAt = t.slaBreachAt := by
  have hmerge : (applyUpdateRequest t req).slaBreachAt = t.slaBreachAt := by
    unfold applyUpdateRequest
    split_ifs <;> rfl
  unfold updateTicketHandler UpdateTicket
  split_ifs <;> simpa using hmerge

end Helpdesk
